import Mathlib

/-!
Verification development for the jaundice-rate article-scoring pipeline.

The development shallowly embeds the two core modules of the repository:

* `text_tools.py` — the tokenizer (`split_by_words` together with the helper
  `_clean_word`) and the scorer (`calculate_jaundice_rate`);
* `urls_handler.py` — the per-URL worker (`process_article` with its
  `handle_exceptions` context manager, the `fetch` wrapper and the
  `get_sanitize_func` dispatcher) and the batch orchestrator
  (`handle_sessions`).

Pure Python functions become Lean functions.  Python floats are modelled as
exact rationals; the builtin `round(x, 2)` becomes round-half-to-even on the
exact rational value at two decimal places.  The external collaborators
(the aiohttp transport, the pymorphy2 normalizer, the regex engine and the
adapters registry, which is not part of the analysed sources) enter the
model as explicit parameters or as outcome-describing data, documented at
each definition.  Exceptions become an explicit error type threaded through
`Except`.
-/

namespace JaundiceRate

/-! ### text_tools.py -/

/-- Model of the glyphs removed by the three chained replace calls in
`_clean_word` (text_tools.py line 10): the quotation marks and the ellipsis.
Each replace call has a single-character pattern and an empty replacement,
so together they delete every occurrence of these three characters. -/
def glyphs : List Char := ['«', '»', '…']

/-- Model of the Python constant `string.punctuation`, the character set
passed to `str.strip` in `_clean_word` (text_tools.py line 12). -/
def punctuation : List Char :=
  "!\"#$%&\x27()*+,-./:;<=>?@[\\]^_`\x7b|\x7d~".toList

/-- Model of Python `str.strip(chars)`: remove the longest run of characters
belonging to `chars` from both ends of the character list. -/
def pyStrip (cs chars : List Char) : List Char :=
  ((cs.dropWhile (fun c => chars.contains c)).reverse.dropWhile
    (fun c => chars.contains c)).reverse

/-- Embedding of `_clean_word` (text_tools.py lines 9-13): delete the glyph
characters everywhere in the word, then strip standard punctuation from both
ends. -/
def _clean_word (word : String) : String :=
  let no_glyphs := word.toList.filter (fun c => !glyphs.contains c)
  String.mk (pyStrip no_glyphs punctuation)

/-- Model of Python `str.split()` with no separator argument, used by
`split_by_words` (text_tools.py line 19): split on runs of whitespace,
producing no empty chunks.  The accumulator carries the characters of the
current chunk in reverse.  Whitespace is modelled by `Char.isWhitespace`
(space, tab, carriage return, newline); the exotic Unicode space characters
recognised by Python do not occur in the analysed claims. -/
def pySplitAux : List Char → List Char → List String
  | [], acc => if acc.isEmpty then [] else [String.mk acc.reverse]
  | c :: cs, acc =>
    if c.isWhitespace then
      if acc.isEmpty then pySplitAux cs []
      else String.mk acc.reverse :: pySplitAux cs []
    else pySplitAux cs (c :: acc)

/-- Model of `text.split()` on a whole string. -/
def pySplit (text : String) : List String := pySplitAux text.toList []

/-- Embedding of the loop body of `split_by_words` (text_tools.py lines
18-25), processing the whitespace-separated raw tokens in order.  The
pymorphy2 normalizer `morph.parse(w)[0].normal_form` is an external
collaborator and is abstracted as the function argument `morph`. -/
def split_by_words_loop (morph : String → String) : List String → List String
  | [] => []
  | word :: rest =>
    let normalized_word := morph (_clean_word word)
    if 2 < normalized_word.length ∨ normalized_word = "не" then
      normalized_word :: split_by_words_loop morph rest
    else
      split_by_words_loop morph rest

/-- Embedding of `split_by_words` (text_tools.py lines 16-25).  The
`await asyncio.sleep(0)` in the loop is a cooperative-scheduling yield with
no effect on the returned value and is not modelled. -/
def split_by_words (morph : String → String) (text : String) : List String :=
  split_by_words_loop morph (pySplit text)

/-- Restatement of the tokenizer following the wording of the specification:
split on whitespace, clean and normalize every token, then keep exactly the
tokens whose canonical form is longer than 2 characters or equal to the
negation particle, in their original order.  Used to compare the loop-shaped
source embedding against the map-then-filter shape of the spec. -/
def split_by_words_spec (morph : String → String) (text : String) : List String :=
  ((pySplit text).map (fun w => morph (_clean_word w))).filter
    (fun normalized_word =>
      decide (2 < normalized_word.length) || normalized_word == "не")

/-- Auxiliary for round-half-to-even: given the floor `f` of a number and its
fractional part `a`, pick `f`, `f + 1`, or on an exact half the even
neighbour. -/
def rheAux (f : ℤ) (a : ℚ) : ℤ :=
  if a < 1 / 2 then f
  else if 1 / 2 < a then f + 1
  else if f % 2 = 0 then f else f + 1

/-- Model of rounding a rational to the nearest integer, ties to even — the
rounding rule of the Python builtin `round`. -/
def roundHalfEven (q : ℚ) : ℤ := rheAux ⌊q⌋ (q - ⌊q⌋)

/-- Model of Python `round(x, 2)` on the exact rational value: round
`x * 100` half-to-even to an integer and divide back by 100. -/
def pyRound2 (q : ℚ) : ℚ := (roundHalfEven (q * 100) : ℚ) / 100

/-- Embedding of `calculate_jaundice_rate` (text_tools.py lines 38-48).
Python tests `word in set(charged_words)`; membership in the set built from
a list coincides with membership in the list itself.  The float arithmetic
of the source is modelled exactly over the rationals. -/
def calculate_jaundice_rate (article_words charged_words : List String) : ℚ :=
  if article_words.isEmpty then 0.0
  else
    let found_charged_words :=
      article_words.filter (fun word => decide (word ∈ charged_words))
    let score : ℚ :=
      (found_charged_words.length : ℚ) / (article_words.length : ℚ) * 100
    pyRound2 score

/-! ### urls_handler.py -/

/-- Embedding of the `ProcessingStatus` enum (urls_handler.py lines 50-57). -/
inductive ProcessingStatus where
  | OK
  | FETCH_ERROR
  | PARSING_ERROR
  | TIMEOUT
deriving DecidableEq

/-- Model of the per-URL result record that a worker emits through
`logging.info` and that `LogHandler` appends to the ambient result list:
the dict with keys title, status, rate and count_words built at
urls_handler.py lines 74-96 and 147-150.  Python `None` becomes `none`. -/
structure ArticleOutcome where
  title : String
  status : ProcessingStatus
  rate : Option ℚ
  count_words : Option ℕ
deriving DecidableEq

/-- Model of the Python exceptions that can cross function boundaries inside
a worker.  `clientResponseError` is `aiohttp.ClientResponseError`, raised by
`response.raise_for_status()` on a non-success HTTP status.
`clientConnectionError` stands for the aiohttp network-level failures (DNS
resolution failure, connection reset, malformed response:
`aiohttp.ClientConnectorError` and its relatives), which in the aiohttp
exception hierarchy are siblings of `ClientResponseError`, not subclasses.
`articleNotFound` is `adapters.ArticleNotFound`, modelled from the spec as
carrying the unresolved host key as its message, since the adapters module
is outside the analysed sources.  `timeoutError` is `asyncio.TimeoutError`
raised by the `async_timeout.timeout` context manager.  `valueError` is the
`ValueError` raised by `more_itertools.first` on an empty iterable. -/
inductive PyExc where
  | clientResponseError
  | clientConnectionError
  | articleNotFound (label : String)
  | timeoutError
  | valueError
deriving DecidableEq

/-- Outcome of one HTTP GET for a given URL, an external-world event
parameterising the model: the request either yields a body, raises
`ClientResponseError` via `raise_for_status`, or fails at the network level
with a connection-class error. -/
inductive FetchOutcome where
  | ok (html : String)
  | clientResponseError
  | clientConnectionError

/-- Embedding of `fetch` (urls_handler.py lines 131-135) over the abstract
outcome of the HTTP GET.  The `set_timeout` decorator only inserts a sleep
in test mode and does not change the returned value. -/
def fetch (result : FetchOutcome) : Except PyExc String :=
  match result with
  | .ok html => .ok html
  | .clientResponseError => .error .clientResponseError
  | .clientConnectionError => .error .clientConnectionError

/-- Model of the groups captured by the URL regex of `get_sanitize_func`
(urls_handler.py line 102): scheme, domain labels, top-level suffix and
path.  The regex engine itself is abstracted; a URL with no parseable host
corresponds to `re.findall` returning an empty list. -/
structure UrlParts where
  scheme : String
  domain : String
  tld : String
  path : String

/-- Model of the key derivation at urls_handler.py line 105:
`'_'.join(url_parts[1:-1])` joins the domain and top-level-suffix groups of
the four-group match tuple with an underscore. -/
def url_parts_key (p : UrlParts) : String := p.domain ++ "_" ++ p.tld

/-- Type of a site extractor registered in `adapters.SANITIZERS`: it takes
the html and a plain-text flag and returns the article title and body. -/
abbrev SanitizeFn := String → Bool → String × String

/-- Embedding of `get_sanitize_func` (urls_handler.py lines 99-109).
`reFindall` abstracts `first(re.findall(pattern, url))` up to the raise:
`none` means the regex matched nothing, in which case `more_itertools.first`
raises `ValueError` on the empty list; `some parts` is the first match.
`SANITIZERS` abstracts the adapters registry, modelled from the spec as a
partial map from host-derived keys to extractors.  A key with no registered
extractor raises `adapters.ArticleNotFound` carrying the key. -/
def get_sanitize_func (SANITIZERS : String → Option SanitizeFn)
    (reFindall : String → Option UrlParts) (url : String) :
    Except PyExc SanitizeFn :=
  match reFindall url with
  | none => .error .valueError
  | some url_parts =>
    let sanitize_func_name := url_parts_key url_parts
    match SANITIZERS sanitize_func_name with
    | none => .error (.articleNotFound sanitize_func_name)
    | some sanitize_func => .ok sanitize_func

/-- Environment of one worker run: the URL it was given, the external-world
events it encounters (whether the shared deadline elapsed before its
pipeline finished, and how its HTTP GET ends), and the shared collaborators
(regex abstraction, adapters registry, pymorphy2 normalizer, charged-word
list). -/
structure WorkerEnv where
  url : String
  timedOut : Bool
  fetchResult : FetchOutcome
  reFindall : String → Option UrlParts
  SANITIZERS : String → Option SanitizeFn
  morph : String → String
  charged_words : List String

/-- Embedding of the body of the `async with timeout(TIMEOUT_TIME)` block of
`process_article` (urls_handler.py lines 141-150): fetch the page, resolve
the extractor, extract title and body, tokenize, score, and emit the OK
record.  Errors propagate as exceptions. -/
def pipeline_body (env : WorkerEnv) : Except PyExc ArticleOutcome :=
  match fetch env.fetchResult with
  | .error e => .error e
  | .ok html =>
    match get_sanitize_func env.SANITIZERS env.reFindall env.url with
    | .error e => .error e
    | .ok sanitize_func =>
      let article := sanitize_func html true
      let article_title := article.1
      let article_text := article.2
      let article_words := split_by_words env.morph article_text
      let rate := calculate_jaundice_rate article_words env.charged_words
      .ok { title := article_title, status := .OK, rate := some rate,
            count_words := some article_words.length }

/-- Per-article deadline constant `TIMEOUT_TIME` (urls_handler.py line 23). -/
def TIMEOUT_TIME : ℕ := 3

/-- Model of the value of the per-article deadline as a function of the
process environment (Python `os.getenv`).  The sources assign
`TIMEOUT_TIME = 3` at module level and never read an environment variable
or any other configuration for it — the only environment lookup in the
repository is `MAX_ARTICLES_COUNT` in server.py — so the function ignores
its argument. -/
def worker_deadline (_getenv : String → Option String) : ℕ :=
  TIMEOUT_TIME

/-- Model of the `async with timeout(TIMEOUT_TIME)` wrapper around the whole
pipeline (urls_handler.py line 141): if the deadline elapsed before the
pipeline reached its end, the block raises `asyncio.TimeoutError`,
superseding whatever the body would have produced; otherwise the body result
stands. -/
def with_timeout (timedOut : Bool) (r : Except PyExc ArticleOutcome) :
    Except PyExc ArticleOutcome :=
  if timedOut then .error .timeoutError else r

/-- Record logged on `aiohttp.ClientResponseError`
(urls_handler.py lines 74-78). -/
def fetch_error_outcome : ArticleOutcome :=
  { title := "URL not exist", status := .FETCH_ERROR,
    rate := none, count_words := none }

/-- Record logged on `adapters.ArticleNotFound` with message `label`
(urls_handler.py lines 82-86). -/
def parsing_error_outcome (label : String) : ArticleOutcome :=
  { title := "Статья на " ++ label, status := .PARSING_ERROR,
    rate := none, count_words := none }

/-- Record logged on `asyncio.TimeoutError` (urls_handler.py lines 90-94). -/
def timeout_outcome : ArticleOutcome :=
  { title := "Время ожидания ответа истекло", status := .TIMEOUT,
    rate := none, count_words := none }

/-- Embedding of the `handle_exceptions` context manager
(urls_handler.py lines 68-97) in non-test mode: the three `except` clauses
convert `ClientResponseError`, `ArticleNotFound` and `TimeoutError` into
logged outcome records and swallow the exception; every other exception
passes through uncaught, and a normal completion is returned unchanged.
The Python match-by-exception-class is written out constructor by
constructor. -/
def handle_exceptions : Except PyExc ArticleOutcome → Except PyExc ArticleOutcome
  | .error .clientResponseError => .ok fetch_error_outcome
  | .error (.articleNotFound label) => .ok (parsing_error_outcome label)
  | .error .timeoutError => .ok timeout_outcome
  | .error .clientConnectionError => .error .clientConnectionError
  | .error .valueError => .error .valueError
  | .ok o => .ok o

/-- Embedding of `process_article` (urls_handler.py lines 138-150): the
pipeline under the whole-pipeline deadline, under `handle_exceptions`.
A `.ok` result is the single record this worker logs (which `LogHandler`
appends to the batch result list); a `.error` result is an exception that
escapes the worker uncaught. -/
def process_article (env : WorkerEnv) : Except PyExc ArticleOutcome :=
  handle_exceptions (with_timeout env.timedOut (pipeline_body env))

/-- Environment of one batch run: per-URL external events plus the shared
collaborators created once in `prepare_clien_session`
(urls_handler.py lines 153-162). -/
structure BatchEnv where
  timedOut : String → Bool
  fetchResult : String → FetchOutcome
  reFindall : String → Option UrlParts
  SANITIZERS : String → Option SanitizeFn
  morph : String → String
  charged_words : List String

/-- Worker environment induced by a batch environment for one URL. -/
def workerEnv (b : BatchEnv) (url : String) : WorkerEnv :=
  { url := url, timedOut := b.timedOut url, fetchResult := b.fetchResult url,
    reFindall := b.reFindall, SANITIZERS := b.SANITIZERS, morph := b.morph,
    charged_words := b.charged_words }

/-- Embedding of `handle_sessions` under `prepare_clien_session`
(urls_handler.py lines 153-170): one `process_article` worker is spawned in
the anyio task group per input URL, duplicates included; if every worker
completes (each logging exactly one record), the batch returns the list of
logged records, while an exception escaping any worker propagates out of
the task group and aborts the batch, so the caller receives the exception
instead of a result list.  The completion order of the concurrent workers
is abstracted to input order; the analysed claims only concern which
records exist, not their order. -/
def handle_sessions (b : BatchEnv) : List String → Except PyExc (List ArticleOutcome)
  | [] => .ok []
  | url :: rest =>
    match process_article (workerEnv b url) with
    | .error e => .error e
    | .ok o =>
      match handle_sessions b rest with
      | .error e => .error e
      | .ok os => .ok (o :: os)

/-! ### Concrete instances used by witnesses and counterexamples -/

/-- Extractor used in concrete instances: title fixed, body passed through. -/
def demoSanitize : SanitizeFn := fun html _ => ("Заголовок", html)

/-- Registry modelled from the spec: the reference adapters register the
key derived from the inosmi host and nothing else. -/
def demoSANITIZERS : String → Option SanitizeFn :=
  fun key => if key = "inosmi_ru" then some demoSanitize else none

/-- Match groups of a well-formed inosmi URL. -/
def demoParts : UrlParts :=
  { scheme := "https://", domain := "inosmi", tld := "ru", path := "/x" }

/-- Match groups of a well-formed lenta URL, whose derived key has no
registered extractor in the modelled registry. -/
def lentaParts : UrlParts :=
  { scheme := "https://", domain := "lenta", tld := "ru", path := "/news" }

/-- Regex abstraction for a malformed input: on a URL with no parseable
host (for example the string of three exclamation marks, which the pattern
cannot match) `re.findall` returns the empty list, so `first` receives an
empty iterable. -/
def malformedReFindall : String → Option UrlParts := fun _ => none

/-- Regex abstraction that parses every URL as the demo inosmi URL. -/
def demoReFindall : String → Option UrlParts := fun _ => some demoParts

/-- Worker environment of a fully successful run on an empty article. -/
def demoEnv : WorkerEnv :=
  { url := "https://inosmi.ru/x", timedOut := false, fetchResult := .ok "",
    reFindall := demoReFindall, SANITIZERS := demoSANITIZERS,
    morph := id, charged_words := [] }

/-- Outcome of the fully successful run on the empty article. -/
def demoOutcome : ArticleOutcome :=
  { title := "Заголовок", status := .OK, rate := some 0.0,
    count_words := some 0 }

/-- Worker environment whose HTTP GET fails at the network level (for
example a DNS resolution failure), raising a connection-class error. -/
def connErrorEnv : WorkerEnv :=
  { url := "https://inosmi.ru/x", timedOut := false,
    fetchResult := .clientConnectionError,
    reFindall := demoReFindall, SANITIZERS := demoSANITIZERS,
    morph := id, charged_words := [] }

/-- Batch environment in which every HTTP GET fails at the network level. -/
def connErrorBatch : BatchEnv :=
  { timedOut := fun _ => false, fetchResult := fun _ => .clientConnectionError,
    reFindall := demoReFindall, SANITIZERS := demoSANITIZERS,
    morph := id, charged_words := [] }

/-- Batch environment in which every HTTP GET yields a non-success status,
so every worker records a FETCH_ERROR outcome. -/
def httpErrorBatch : BatchEnv :=
  { timedOut := fun _ => false, fetchResult := fun _ => .clientResponseError,
    reFindall := demoReFindall, SANITIZERS := demoSANITIZERS,
    morph := id, charged_words := [] }

/-- Worker environment whose HTTP GET yields a non-success status, so
`raise_for_status` raises `ClientResponseError`. -/
def httpErrorEnv : WorkerEnv :=
  { url := "https://inosmi.ru/x", timedOut := false,
    fetchResult := .clientResponseError,
    reFindall := demoReFindall, SANITIZERS := demoSANITIZERS,
    morph := id, charged_words := [] }

/-- Worker environment that exceeds the per-article deadline. -/
def timedOutEnv : WorkerEnv :=
  { url := "https://inosmi.ru/x", timedOut := true, fetchResult := .ok "",
    reFindall := demoReFindall, SANITIZERS := demoSANITIZERS,
    morph := id, charged_words := [] }

/-- Worker environment of a fetch that succeeds on a URL whose derived host
key (lenta_ru) has no registered extractor. -/
def lentaEnv : WorkerEnv :=
  { url := "https://lenta.ru/news", timedOut := false, fetchResult := .ok "",
    reFindall := fun _ => some lentaParts, SANITIZERS := demoSANITIZERS,
    morph := id, charged_words := [] }

/-- Batch environment in which no deadline elapses and every GET succeeds. -/
def demoBatch : BatchEnv :=
  { timedOut := fun _ => false, fetchResult := fun _ => .ok "",
    reFindall := demoReFindall, SANITIZERS := demoSANITIZERS,
    morph := id, charged_words := [] }

/-- Batch environment `b` with the deadline of the worker of URL `u` marked
as elapsed, every other URL unchanged. -/
def set_timed_out (b : BatchEnv) (u : String) : BatchEnv :=
  { b with timedOut := fun url => if url = u then true else b.timedOut url }

/-! ### Helper lemmas about the rounding model -/

theorem rheAux_bounds (f : ℤ) (a : ℚ) : f ≤ rheAux f a ∧ rheAux f a ≤ f + 1 := by
  unfold rheAux
  split_ifs <;> omega

theorem rheAux_mono (f : ℤ) {a b : ℚ} (hab : a ≤ b) :
    rheAux f a ≤ rheAux f b := by
  unfold rheAux
  split_ifs <;> first | omega | (exfalso; linarith)

theorem roundHalfEven_mono {x y : ℚ} (h : x ≤ y) :
    roundHalfEven x ≤ roundHalfEven y := by
  unfold roundHalfEven
  rcases eq_or_lt_of_le (Int.floor_mono h) with hf | hf
  · rw [hf]
    exact rheAux_mono _ (by linarith)
  · have h1 := (rheAux_bounds ⌊x⌋ (x - ⌊x⌋)).2
    have h2 := (rheAux_bounds ⌊y⌋ (y - ⌊y⌋)).1
    omega

theorem pyRound2_mono {x y : ℚ} (h : x ≤ y) : pyRound2 x ≤ pyRound2 y := by
  unfold pyRound2
  have h1 : roundHalfEven (x * 100) ≤ roundHalfEven (y * 100) :=
    roundHalfEven_mono (by linarith)
  have h2 : ((roundHalfEven (x * 100) : ℤ) : ℚ) ≤
      ((roundHalfEven (y * 100) : ℤ) : ℚ) := by exact_mod_cast h1
  linarith

/-! ### Claims about text_tools.py -/

/-- C6: for every input text, the tokenizer `split_by_words` splits on
whitespace, removes the glyphs «, » and … from each token, strips standard
punctuation from both ends, replaces the token by its normalized canonical
form, and keeps the result exactly when its length exceeds 2 characters or
it equals the word не, emitting the kept tokens in their original order —
that is, the loop of the source equals the map-then-filter form of the
specification.  Two concrete evaluations of `_clean_word` exhibit the glyph
removal and the two-sided punctuation stripping. -/
theorem split_by_words_refines_spec :
    (∀ (morph : String → String) (text : String),
      split_by_words morph text = split_by_words_spec morph text) ∧
    _clean_word "«привет»…" = "привет" ∧
    _clean_word "(во-первых," = "во-первых" := by
  refine ⟨fun morph text => ?_, by decide, by decide⟩
  unfold split_by_words split_by_words_spec
  induction pySplit text with
  | nil => rfl
  | cons w ws ih =>
    simp only [split_by_words_loop, List.map_cons, List.filter_cons, ih]
    by_cases h1 : 2 < (morph (_clean_word w)).length
    · simp [h1]
    · by_cases h2 : morph (_clean_word w) = "не"
      · simp [h1, h2]
      · simp [h1, h2]

/-- Concrete evaluation of the scorer on the example of the specification:
one charged token out of three scores 100/3 percent, which rounds to 33.33. -/
theorem example_rate_value :
    calculate_jaundice_rate ["все", "аутсайдер", "побег"]
      ["аутсайдер", "банкротство"] = 3333 / 100 := by
  have h1 : (["все", "аутсайдер", "побег"].filter
      (fun word => decide (word ∈ ["аутсайдер", "банкротство"]))) =
      ["аутсайдер"] := by decide
  simp only [calculate_jaundice_rate, h1]
  norm_num [pyRound2, roundHalfEven, rheAux]

/-- C7: for every non-empty token list and every lexicon,
`calculate_jaundice_rate` returns the count of tokens belonging to the
lexicon, divided by the total token count, times 100, rounded to two
decimal places; on the token list все, аутсайдер, побег with the lexicon
аутсайдер, банкротство the result lies strictly between 33 and 34. -/
theorem calculate_jaundice_rate_formula :
    (∀ (tokens lexicon : List String), tokens ≠ [] →
      calculate_jaundice_rate tokens lexicon =
        pyRound2 (((tokens.countP (fun w => decide (w ∈ lexicon))) : ℚ) /
          (tokens.length : ℚ) * 100)) ∧
    (33 : ℚ) < calculate_jaundice_rate ["все", "аутсайдер", "побег"]
        ["аутсайдер", "банкротство"] ∧
    calculate_jaundice_rate ["все", "аутсайдер", "побег"]
        ["аутсайдер", "банкротство"] < 34 := by
  refine ⟨fun tokens lexicon h => ?_,
    by rw [example_rate_value]; norm_num, by rw [example_rate_value]; norm_num⟩
  simp only [calculate_jaundice_rate]
  rw [if_neg (by simpa [List.isEmpty_iff] using h)]
  rw [List.countP_eq_length_filter]

/-- Closed instance of the hypothesis-carrying part of the C7 theorem at a
concrete non-empty token list. -/
theorem calculate_jaundice_rate_formula_witness :
    calculate_jaundice_rate ["все", "аутсайдер", "побег"]
        ["аутсайдер", "банкротство"] =
      pyRound2 (((["все", "аутсайдер", "побег"].countP
          (fun w => decide (w ∈ ["аутсайдер", "банкротство"]))) : ℚ) /
        ((["все", "аутсайдер", "побег"] : List String).length : ℚ) * 100) :=
  calculate_jaundice_rate_formula.1 _ _ (by decide)

/-- C8: for every lexicon, including the empty one, the scorer applied to
the empty token list returns exactly 0.0: the division branch is not taken. -/
theorem empty_tokens_rate_zero (charged_words : List String) :
    calculate_jaundice_rate [] charged_words = 0.0 := rfl

/-- C9: for two inputs with the same number of tokens, if the first has at
least as many tokens belonging to its lexicon as the second, the score of
the first is at least the score of the second — monotonicity in the
charged-token count, surviving the two-decimal rounding. -/
theorem jaundice_rate_monotone (t1 t2 l1 l2 : List String)
    (hlen : t1.length = t2.length)
    (hcount : (t2.filter (fun w => decide (w ∈ l2))).length ≤
      (t1.filter (fun w => decide (w ∈ l1))).length) :
    calculate_jaundice_rate t2 l2 ≤ calculate_jaundice_rate t1 l1 := by
  simp only [calculate_jaundice_rate]
  by_cases h1 : t1.isEmpty
  · have h2 : t2.isEmpty := by
      simp only [List.isEmpty_iff] at h1 ⊢
      subst h1
      exact List.length_eq_zero.mp hlen.symm
    rw [if_pos h1, if_pos h2]
  · have h2 : ¬ t2.isEmpty := by
      simp only [List.isEmpty_iff] at h1 ⊢
      intro hnil
      apply h1
      apply List.length_eq_zero.mp
      rw [hlen, hnil]
      rfl
    rw [if_neg h1, if_neg h2]
    apply pyRound2_mono
    rw [← hlen]
    have hn : (0 : ℚ) < (t1.length : ℚ) := by
      have : t1 ≠ [] := by simpa [List.isEmpty_iff] using h1
      exact_mod_cast List.length_pos.mpr this
    have hc : ((t2.filter (fun w => decide (w ∈ l2))).length : ℚ) ≤
        ((t1.filter (fun w => decide (w ∈ l1))).length : ℚ) := by
      exact_mod_cast hcount
    have hinv : (0 : ℚ) ≤ ((t1.length : ℚ))⁻¹ := inv_nonneg.mpr hn.le
    rw [div_eq_mul_inv, div_eq_mul_inv]
    exact mul_le_mul_of_nonneg_right
      (mul_le_mul_of_nonneg_right hc hinv) (by norm_num)

/-- Closed instance of the C9 theorem: two tokens, one charged versus none. -/
theorem jaundice_rate_monotone_witness :
    calculate_jaundice_rate ["б", "в"] [] ≤
      calculate_jaundice_rate ["а", "б"] ["а"] :=
  jaundice_rate_monotone ["а", "б"] ["б", "в"] ["а"] [] (by decide) (by decide)

/-- C10: the score is invariant under reordering and duplication of the
charged-word list — any two lexicons with the same members give the same
score on every token list, because membership is tested against the set of
the lexicon. -/
theorem jaundice_rate_lexicon_set_invariant (tokens l l' : List String)
    (h : ∀ w, w ∈ l ↔ w ∈ l') :
    calculate_jaundice_rate tokens l = calculate_jaundice_rate tokens l' := by
  simp only [calculate_jaundice_rate]
  have hf : tokens.filter (fun w => decide (w ∈ l)) =
      tokens.filter (fun w => decide (w ∈ l')) := by
    apply List.filter_congr
    intro x _
    exact decide_eq_decide.mpr (h x)
  rw [hf]

/-- Closed instance of the C10 theorem: a lexicon with a duplicated entry
versus its deduplication. -/
theorem jaundice_rate_lexicon_set_invariant_witness :
    calculate_jaundice_rate ["аутсайдер", "мир"] ["аутсайдер", "аутсайдер"] =
      calculate_jaundice_rate ["аутсайдер", "мир"] ["аутсайдер"] :=
  jaundice_rate_lexicon_set_invariant _ _ _ (fun w => by simp)

/-! ### Claims about urls_handler.py -/

/-- Every successful pipeline run produces an OK record with rate and word
count populated. -/
theorem pipeline_body_ok {env : WorkerEnv} {o : ArticleOutcome}
    (h : pipeline_body env = .ok o) :
    o.status = .OK ∧ o.rate.isSome ∧ o.count_words.isSome := by
  unfold pipeline_body at h
  cases hf : fetch env.fetchResult with
  | error e => rw [hf] at h; exact Except.noConfusion h
  | ok html =>
    rw [hf] at h
    cases hs : get_sanitize_func env.SANITIZERS env.reFindall env.url with
    | error e => rw [hs] at h; exact Except.noConfusion h
    | ok sanitize_func =>
      rw [hs] at h
      simp only [Except.ok.injEq] at h
      subst h
      simp

/-- C2: every outcome record a worker produces has rate and count_words
either both present or both absent, and which of the two holds is
determined solely by the status: both present when the status is OK, both
absent otherwise (FETCH_ERROR, PARSING_ERROR or TIMEOUT). -/
theorem process_article_outcome_invariant (env : WorkerEnv)
    (o : ArticleOutcome) (h : process_article env = .ok o) :
    (o.status = .OK → o.rate.isSome ∧ o.count_words.isSome) ∧
    (o.status ≠ .OK → o.rate = none ∧ o.count_words = none) := by
  unfold process_article with_timeout at h
  cases ht : env.timedOut with
  | true =>
    rw [ht] at h
    simp only [if_true] at h
    simp only [handle_exceptions, Except.ok.injEq] at h
    subst h
    simp [timeout_outcome]
  | false =>
    rw [ht] at h
    simp only [Bool.false_eq_true, if_false] at h
    cases hp : pipeline_body env with
    | error e =>
      rw [hp] at h
      cases e with
      | clientResponseError =>
        simp only [handle_exceptions, Except.ok.injEq] at h
        subst h
        simp [fetch_error_outcome]
      | articleNotFound label =>
        simp only [handle_exceptions, Except.ok.injEq] at h
        subst h
        simp [parsing_error_outcome]
      | timeoutError =>
        simp only [handle_exceptions, Except.ok.injEq] at h
        subst h
        simp [timeout_outcome]
      | clientConnectionError => simp [handle_exceptions] at h
      | valueError => simp [handle_exceptions] at h
    | ok o' =>
      rw [hp] at h
      simp only [handle_exceptions, Except.ok.injEq] at h
      subst h
      have hinv := pipeline_body_ok hp
      exact ⟨fun _ => ⟨hinv.2.1, hinv.2.2⟩, fun hne => absurd hinv.1 hne⟩

/-- Closed instance of the C2 theorem at a concrete successful worker run. -/
theorem process_article_outcome_invariant_witness :
    (demoOutcome.status = .OK →
      demoOutcome.rate.isSome ∧ demoOutcome.count_words.isSome) ∧
    (demoOutcome.status ≠ .OK →
      demoOutcome.rate = none ∧ demoOutcome.count_words = none) :=
  process_article_outcome_invariant demoEnv demoOutcome rfl

/-- C1 counterexample: a worker whose HTTP GET fails at the network level
(for example a DNS resolution failure raising
`aiohttp.ClientConnectorError`, which is not an `aiohttp.ClientResponseError`)
raises an exception that none of the `except` clauses of
`handle_exceptions` catches, so it escapes the worker, propagates out of
the anyio task group, and the batch aborts with the exception instead of
returning a result list — refuting the claim that every input URL yields
one outcome and that no worker failure can abort the batch. -/
theorem handle_sessions_aborts_on_network_error :
    handle_sessions connErrorBatch ["https://inosmi.ru/x"] =
      Except.error PyExc.clientConnectionError := rfl

/-- C1 (amended): if every worker of the batch either completes its
pipeline or fails only with the three handled exception kinds — so that
`process_article` records an outcome — then `handle_sessions` returns one
outcome record per input URL, duplicates included, and no worker failure
aborts the batch. -/
theorem handle_sessions_complete (b : BatchEnv) (urls : List String)
    (h : ∀ url ∈ urls, ∃ o, process_article (workerEnv b url) = .ok o) :
    ∃ outcomes, handle_sessions b urls = .ok outcomes ∧
      outcomes.length = urls.length := by
  induction urls with
  | nil => exact ⟨[], rfl, rfl⟩
  | cons u rest ih =>
    obtain ⟨o, ho⟩ := h u (List.mem_cons_self u rest)
    obtain ⟨os, hos, hlen⟩ := ih (fun v hv => h v (List.mem_cons_of_mem _ hv))
    exact ⟨o :: os, by simp [handle_sessions, ho, hos], by simp [hlen]⟩

/-- Closed instance of the amended C1 theorem on a batch of two duplicate
URLs whose fetches fail with a non-success HTTP status: a failing URL still
yields one outcome each. -/
theorem handle_sessions_complete_witness :
    ∃ outcomes, handle_sessions httpErrorBatch ["u", "u"] = .ok outcomes ∧
      outcomes.length = (["u", "u"] : List String).length :=
  handle_sessions_complete httpErrorBatch ["u", "u"]
    (fun _ _ => ⟨fetch_error_outcome, rfl⟩)

/-- C3 counterexample: a network-level fetch failure (DNS resolution
failure, connection reset — an aiohttp connection-class error, not a
`ClientResponseError`) does not produce a FETCH_ERROR outcome: it escapes
the worker uncaught, refuting the claim for network-level failures. -/
theorem network_error_escapes_worker :
    process_article connErrorEnv = Except.error PyExc.clientConnectionError :=
  rfl

/-- C3 (amended): for every URL whose fetch raises
`aiohttp.ClientResponseError` — a non-success HTTP status surfaced by
`raise_for_status` — the worker records the FETCH_ERROR outcome with null
rate and count_words and does not re-raise, so the failure is not fatal to
the batch; no retry exists in the pipeline.  Network-level failures of
other exception classes instead escape the worker uncaught. -/
theorem http_error_yields_fetch_error_outcome (env : WorkerEnv)
    (ht : env.timedOut = false) (hf : env.fetchResult = .clientResponseError) :
    process_article env = .ok fetch_error_outcome := by
  have h1 : pipeline_body env = .error .clientResponseError := by
    unfold pipeline_body
    rw [hf]
    rfl
  unfold process_article with_timeout
  rw [ht, h1]
  rfl

/-- Closed instance of the amended C3 theorem. -/
theorem http_error_yields_fetch_error_outcome_witness :
    process_article httpErrorEnv = .ok fetch_error_outcome :=
  http_error_yields_fetch_error_outcome httpErrorEnv rfl rfl

/-- C4 counterexample: on a malformed URL with no parseable host the regex
of `get_sanitize_func` matches nothing, so `more_itertools.first` receives
an empty list and raises `ValueError` — not the article-source-not-found
condition `adapters.ArticleNotFound` the claim requires — and this
exception is not converted to a PARSING_ERROR outcome. -/
theorem malformed_url_raises_value_error :
    get_sanitize_func demoSANITIZERS malformedReFindall "!!!" =
      Except.error PyExc.valueError := rfl

/-- C4 (amended): for every URL whose host parses but whose derived key has
no registered extractor, `get_sanitize_func` raises `ArticleNotFound`
carrying the offending key, and the worker converts it to an outcome with
status PARSING_ERROR, null rate and null count_words.  A malformed URL (no
parseable host) instead raises an uncaught `ValueError` from
`more_itertools.first`. -/
theorem unregistered_host_yields_parsing_error :
    (∀ (SANITIZERS : String → Option SanitizeFn)
        (reFindall : String → Option UrlParts) (url : String)
        (parts : UrlParts),
      reFindall url = some parts →
      SANITIZERS (url_parts_key parts) = none →
      get_sanitize_func SANITIZERS reFindall url =
        .error (.articleNotFound (url_parts_key parts))) ∧
    (∀ (env : WorkerEnv) (html : String) (parts : UrlParts),
      env.timedOut = false →
      env.fetchResult = .ok html →
      env.reFindall env.url = some parts →
      env.SANITIZERS (url_parts_key parts) = none →
      process_article env = .ok (parsing_error_outcome (url_parts_key parts))) := by
  constructor
  · intro SANITIZERS reFindall url parts hp hs
    unfold get_sanitize_func
    rw [hp]
    simp [hs]
  · intro env html parts ht hf hp hs
    have h1 : pipeline_body env =
        .error (.articleNotFound (url_parts_key parts)) := by
      simp [pipeline_body, fetch, get_sanitize_func, hf, hp, hs]
    unfold process_article with_timeout
    rw [ht, h1]
    rfl

/-- Closed instance of the amended C4 theorem on a lenta URL, whose derived
key lenta_ru is not registered. -/
theorem unregistered_host_yields_parsing_error_witness :
    get_sanitize_func demoSANITIZERS (fun _ => some lentaParts)
        "https://lenta.ru/news" =
      Except.error (PyExc.articleNotFound (url_parts_key lentaParts)) ∧
    process_article lentaEnv =
      Except.ok (parsing_error_outcome (url_parts_key lentaParts)) :=
  ⟨unregistered_host_yields_parsing_error.1 demoSANITIZERS
      (fun _ => some lentaParts) "https://lenta.ru/news" lentaParts rfl rfl,
    unregistered_host_yields_parsing_error.2 lentaEnv "" lentaParts
      rfl rfl rfl rfl⟩

/-- C5 counterexample: the per-article deadline is the module constant
`TIMEOUT_TIME = 3`; no environment variable or configuration input is
consulted for it (the only environment lookup in the repository is
MAX_ARTICLES_COUNT in server.py), so the deadline stays 3 seconds whatever
the environment holds — refuting the claim that it is overridable by
environment or config. -/
theorem deadline_not_env_overridable :
    worker_deadline (fun _ => some "10") = 3 ∧
    worker_deadline (fun _ => none) = 3 := ⟨rfl, rfl⟩

/-- C5 (amended): a single per-article deadline — fixed at 3 seconds by the
constant TIMEOUT_TIME, not overridable by environment or configuration —
wraps all four pipeline sub-steps (fetch, extract, tokenize, score) as one
unit: whenever it elapses before completion, at whatever stage the worker
is, the worker aborts in place with the TIMEOUT outcome; and marking one
URL as timed out leaves the outcome of every other worker unchanged. -/
theorem timeout_wraps_whole_pipeline :
    TIMEOUT_TIME = 3 ∧
    (∀ getenv : String → Option String, worker_deadline getenv = TIMEOUT_TIME) ∧
    (∀ env : WorkerEnv, env.timedOut = true →
      process_article env = .ok timeout_outcome) ∧
    (∀ (b : BatchEnv) (u v : String), v ≠ u →
      process_article (workerEnv (set_timed_out b u) v) =
        process_article (workerEnv b v)) := by
  refine ⟨rfl, fun _ => rfl, fun env ht => ?_, fun b u v hvu => ?_⟩
  · unfold process_article with_timeout
    rw [ht]
    rfl
  · have henv : workerEnv (set_timed_out b u) v = workerEnv b v := by
      unfold workerEnv set_timed_out
      simp [hvu]
    rw [henv]

/-- Closed instance of the amended C5 theorem: a timed-out worker records
the TIMEOUT outcome and an unrelated worker of the same batch is
unaffected. -/
theorem timeout_wraps_whole_pipeline_witness :
    process_article timedOutEnv = Except.ok timeout_outcome ∧
    process_article (workerEnv (set_timed_out demoBatch "u") "v") =
      process_article (workerEnv demoBatch "v") :=
  ⟨timeout_wraps_whole_pipeline.2.2.1 timedOutEnv rfl,
    timeout_wraps_whole_pipeline.2.2.2 demoBatch "u" "v" (by decide)⟩

end JaundiceRate
